import Mathlib

/-!
Verification of the orbit propagation / coordinate transform / footprint
pipeline of src/CesiumViewer.jsx.

The real-number embedding models JavaScript numbers as exact reals; a NaN
(which in the source marks a failed propagation) is modelled as `none` in an
`Option ℝ` field.  The external propagation library's SGP4 core
(twoline2satrec / propagate / gstime) is kept abstract — the source only
consumes its results — while the frame-transform functions it imports
(degreesToRadians, eciToGeodetic, geodeticToEcf) are modelled concretely from
the spec's Frame Transform Pipeline section, since the claims quantify over
their composition.
-/

open Real

/-- Earth-centered inertial position vector (km), as produced by the propagator. -/
structure EciVec where
  x : ℝ
  y : ℝ
  z : ℝ

/-- Geodetic position: longitude and latitude in radians, height in km —
the output convention of the frame-transform library's ellipsoid inversion. -/
structure Geodetic where
  longitude : ℝ
  latitude : ℝ
  height : ℝ

/-- Earth-centered Earth-fixed Cartesian position. -/
structure EcfVec where
  x : ℝ
  y : ℝ
  z : ℝ

/-- Result of a propagation call: optional position and velocity.
A `none` field models the library's false/undefined field on failure
(decay, bad eccentricity, anomaly divergence). -/
structure PosVel where
  position : Option EciVec
  velocity : Option EciVec

/-- A JavaScript 3-vector whose components may be NaN (`none`). -/
structure JsVec3 where
  x : Option ℝ
  y : Option ℝ
  z : Option ℝ

/-- Return value of calculatePositionAtTime: the spread Earth-fixed Cartesian
components plus the height field.  `none` components model NaN / absent. -/
structure CalcResult where
  x : Option ℝ
  y : Option ℝ
  z : Option ℝ
  height : Option ℝ

/-- Modelled from the spec: semi-major axis of the reference ellipsoid (km),
the named unit constant of the Frame Transform Pipeline. -/
noncomputable def semiMajorAxisKm : ℝ := 6378.137

/-- Modelled from the spec: semi-minor axis of the reference ellipsoid (km). -/
noncomputable def semiMinorAxisKm : ℝ := 6356.7523142

/-- Modelled from the spec: flattening of the reference ellipsoid. -/
noncomputable def flatteningConst : ℝ := (semiMajorAxisKm - semiMinorAxisKm) / semiMajorAxisKm

/-- Modelled from the spec: first eccentricity squared of the ellipsoid. -/
noncomputable def eccSq : ℝ := 2 * flatteningConst - flatteningConst ^ 2

/-- Modelled from the spec: degrees-to-radians unit conversion helper imported
by the source from the propagation library. -/
noncomputable def degreesToRadians (deg : ℝ) : ℝ := deg * π / 180

/-- Modelled from the spec: four-quadrant arctangent used for the azimuth and
the latitude solver of the frame-transform pipeline. -/
noncomputable def atan2 (y x : ℝ) : ℝ :=
  if 0 < x then arctan (y / x)
  else if x < 0 then (if 0 ≤ y then arctan (y / x) + π else arctan (y / x) - π)
  else (if 0 < y then π / 2 else if y < 0 then -(π / 2) else 0)

/-- Modelled from the spec: normalization of a longitude to the canonical
range, subtracting the nearest multiple of a full turn. -/
noncomputable def wrapLongitude (lon : ℝ) : ℝ :=
  lon - 2 * π * ((round (lon / (2 * π)) : ℤ) : ℝ)

/-- Modelled from the spec: one step of the bounded iterative ellipsoid
latitude inversion (fixed iteration cap, no unbounded loop). -/
noncomputable def geodeticLatStep (bigR z lat : ℝ) : ℝ :=
  let C := 1 / Real.sqrt (1 - eccSq * Real.sin lat ^ 2)
  atan2 (z + semiMajorAxisKm * C * eccSq * Real.sin lat) bigR

/-- Modelled from the spec: eciToGeodetic — rotate the inertial position by
the sidereal angle into the Earth-fixed frame and invert the ellipsoid with
the bounded (20-step) latitude iteration.  Longitude and latitude are in
radians, height in km, the library's output convention. -/
noncomputable def eciToGeodetic (eci : EciVec) (gmst : ℝ) : Geodetic :=
  let bigR := Real.sqrt (eci.x ^ 2 + eci.y ^ 2)
  let longitude := wrapLongitude (atan2 eci.y eci.x - gmst)
  let latitude := (geodeticLatStep bigR eci.z)^[20] (atan2 eci.z bigR)
  let C := 1 / Real.sqrt (1 - eccSq * Real.sin latitude ^ 2)
  { longitude := longitude
    latitude := latitude
    height := bigR / Real.cos latitude - semiMajorAxisKm * C }

/-- Modelled from the spec: geodeticToEcf — the inverse ellipsoidal
projection, expecting angles in radians and height in km. -/
noncomputable def geodeticToEcf (gd : Geodetic) : EcfVec :=
  let normal := semiMajorAxisKm / Real.sqrt (1 - eccSq * Real.sin gd.latitude ^ 2)
  { x := (normal + gd.height) * Real.cos gd.latitude * Real.cos gd.longitude
    y := (normal + gd.height) * Real.cos gd.latitude * Real.sin gd.longitude
    z := (normal * (1 - eccSq) + gd.height) * Real.sin gd.latitude }

/-- Modelled from the spec: rotation of an inertial position by the sidereal
angle into the Earth-fixed frame — the reference Earth-fixed Cartesian
position for the round-trip property. -/
noncomputable def eciToEcf (eci : EciVec) (gmst : ℝ) : EcfVec :=
  { x := eci.x * Real.cos gmst + eci.y * Real.sin gmst
    y := -(eci.x * Real.sin gmst) + eci.y * Real.cos gmst
    z := eci.z }

/-- Embedding of the body of calculatePositionAtTime after the external
propagate and gstime calls, taking their results as inputs.  When position or
velocity is missing the source logs and returns the sentinel with NaN x, y, z
(modelled by `none`); otherwise it converts the geodetic output — applying
degreesToRadians to the (already radian) angles and scaling the km height by
1000 — and spreads the resulting Earth-fixed Cartesian plus the height. -/
noncomputable def calculatePositionAtTime (positionAndVelocity : PosVel) (gmst : ℝ) :
    CalcResult :=
  match positionAndVelocity.position, positionAndVelocity.velocity with
  | some positionEci, some _ =>
      let positionGd := eciToGeodetic positionEci gmst
      let longitude := degreesToRadians positionGd.longitude
      let latitude := degreesToRadians positionGd.latitude
      let height := positionGd.height * 1000
      let cartesianPosition :=
        geodeticToEcf { longitude := longitude, latitude := latitude, height := height }
      { x := some cartesianPosition.x
        y := some cartesianPosition.y
        z := some cartesianPosition.z
        height := some height }
  | _, _ => { x := none, y := none, z := none, height := none }

/-- Interface of the external propagation library: the three imported
functions whose internals are outside this repository (SGP4 itself is not
modelled; the parser's record type is abstract). -/
structure SatLib (SatRec : Type) where
  twoline2satrec : String → String → SatRec
  propagate : SatRec → ℝ → PosVel
  gstime : ℝ → ℝ

/-- Full embedding of calculatePositionAtTime: parse the two-line element set,
propagate at the date, take the sidereal angle, then transform — exactly the
data flow of the source function. -/
noncomputable def calculatePositionAtTimeTLE {SatRec : Type} (lib : SatLib SatRec)
    (line1 line2 : String) (date : ℝ) : CalcResult :=
  let satellite := lib.twoline2satrec line1 line2
  let positionAndVelocity := lib.propagate satellite date
  calculatePositionAtTime positionAndVelocity (lib.gstime date)

/-- The first line of the two-line element set hard-coded in the source. -/
def tleLine1 : String :=
  "1 25544U 98067A   21275.51251685  .00001419  00000-0  32216-4 0  9993"

/-- The second line of the two-line element set hard-coded in the source. -/
def tleLine2 : String :=
  "2 25544  51.6441  51.4465 0002207 282.8304 220.1671 15.48935791293993"

/-- The numeric footprint value computed inside calculateFovFootprint before
formatting: pi * r * r / 1000000 with r = height * tan(fovAngle / 2 in
radians). -/
noncomputable def fovFootprintArea (height fovAngle : ℝ) : ℝ :=
  let fovRadius := height * Real.tan (degreesToRadians (fovAngle / 2))
  π * fovRadius * fovRadius / 1000000

/-- Result of JavaScript's Number.prototype.toFixed(2) on a finite value: for
a magnitude below 1e21, a decimal string with exactly two fraction digits,
represented by its value in hundredths (ties rounded to the larger candidate,
as toFixed does); at or above that threshold ECMAScript falls back to
ToString, producing exponential notation — not a two-fraction-digit
fixed-point string — carrying the unformatted value. -/
inductive ToFixed2 where
  | fixed (hundredths : ℤ) : ToFixed2
  | exponential (value : ℝ) : ToFixed2

/-- Whether a toFixed(2) result is a decimal string with exactly two fraction
digits. -/
def ToFixed2.isTwoDigitDecimal : ToFixed2 → Bool
  | ToFixed2.fixed _ => true
  | ToFixed2.exponential _ => false

/-- The ECMAScript toFixed(2) formatting: rounding to hundredths below the
1e21 magnitude threshold, exponential notation at or above it. -/
noncomputable def jsToFixed2 (x : ℝ) : ToFixed2 :=
  if |x| < 10 ^ 21 then ToFixed2.fixed (round (100 * x)) else ToFixed2.exponential x

/-- Embedding of calculateFovFootprint: the area value formatted by
toFixed(2), including the exponential-notation fallback for magnitudes at or
above 1e21. -/
noncomputable def calculateFovFootprint (height fovAngle : ℝ) : ToFixed2 :=
  jsToFixed2 (fovFootprintArea height fovAngle)

/-- The isFinite(x) && isFinite(y) && isFinite(z) guard of the sampling loop,
applied to a transform result (NaN components are `none`). -/
def isFiniteCalc (r : CalcResult) : Bool := r.x.isSome && r.y.isSome && r.z.isSome

/-- The Cartesian sample stored for a passing instant: the new Cartesian3 of
the position's x, y and z fields. -/
def posOf (r : CalcResult) : JsVec3 := ⟨r.x, r.y, r.z⟩

/-- Finiteness of a stored 3-vector's components. -/
def isFiniteVec3 (v : JsVec3) : Bool := v.x.isSome && v.y.isSome && v.z.isSome

/-- Embedding of the sampling loop "for (let i = 0; i < 3600; i += 10)": the
offset i (seconds from the start instant) advances by the 10-second step while
i < 3600, appending a sample exactly when the finiteness guard passes.  The
per-instant function p models calculatePositionAtTime at offset i.  The fuel
argument makes the recursion structural; 360 units of fuel provably cover the
loop since the guard fails once i reaches 3600. -/
def sweepLoop (p : ℕ → CalcResult) : ℕ → ℕ → List (ℕ × JsVec3)
  | i, fuel + 1 =>
      if i < 3600 then
        (if isFiniteCalc (p i) then [(i, posOf (p i))] else []) ++ sweepLoop p (i + 10) fuel
      else []
  | _, 0 => []

/-- The full sampling sweep over the 3600-second window at the 10-second step. -/
def sampleSweep (p : ℕ → CalcResult) : List (ℕ × JsVec3) := sweepLoop p 0 360

/-- The instants visited by a k-iteration tail of the sweep starting at offset i. -/
def sweepInstants (k i : ℕ) : List ℕ := (List.range k).map (fun j => i + 10 * j)

/-- Per-instant contribution of the sweep, as a filterMap step: a sample when
the finiteness guard passes, nothing otherwise. -/
def sweepStep (p : ℕ → CalcResult) (t : ℕ) : Option (ℕ × JsVec3) :=
  if isFiniteCalc (p t) then some (t, posOf (p t)) else none

/-- The sweep loop with k iterations of fuel left, entered at offset i with
i + 10 * k = 3600, visits exactly the instants i, i+10, ..., keeping the ones
whose result passes the finiteness guard. -/
theorem sweepLoop_eq_filterMap (p : ℕ → CalcResult) :
    ∀ (k i : ℕ), i + 10 * k = 3600 →
      sweepLoop p i k = (sweepInstants k i).filterMap (sweepStep p) := by
  intro k
  induction k with
  | zero =>
      intro i _
      simp [sweepLoop, sweepInstants]
  | succ k ih =>
      intro i hi
      have hlt : i < 3600 := by omega
      have hstep : sweepLoop p i (k + 1) =
          (if isFiniteCalc (p i) then [(i, posOf (p i))] else []) ++
            sweepLoop p (i + 10) k := by
        rw [sweepLoop, if_pos hlt]
      have hinst : sweepInstants (k + 1) i = i :: sweepInstants k (i + 10) := by
        simp only [sweepInstants, List.range_succ_eq_map, List.map_cons, List.map_map]
        have h0 : i + 10 * 0 = i := by omega
        have hf : ((fun j => i + 10 * j) ∘ Nat.succ) = fun j => (i + 10) + 10 * j := by
          funext j
          simp only [Function.comp]
          omega
        rw [h0, hf]
      rw [hstep, hinst, List.filterMap_cons, ih (i + 10) (by omega)]
      cases hfin : isFiniteCalc (p i) <;> simp [sweepStep, hfin]

/-- The full sweep as a filterMap over the 360 nominal instants. -/
theorem sampleSweep_eq (p : ℕ → CalcResult) :
    sampleSweep p = (sweepInstants 360 0).filterMap (sweepStep p) :=
  sweepLoop_eq_filterMap p 360 0 (by omega)

/-- C5: when every instant propagates to a finite position, the sweep over the
3600-second window at the 10-second step yields exactly 360 samples, contains
the start instant, and its instants are strictly increasing (hence without
duplicates). -/
theorem c5_sweep_yields_360_strictly_increasing (p : ℕ → CalcResult)
    (hp : ∀ t, isFiniteCalc (p t) = true) :
    (sampleSweep p).length = 360 ∧
      ((0, posOf (p 0)) : ℕ × JsVec3) ∈ sampleSweep p ∧
      (sampleSweep p).Pairwise (fun s₁ s₂ => s₁.1 < s₂.1) := by
  have hfun : sweepStep p = fun t => some ((fun u => (u, posOf (p u))) t) := by
    funext t
    simp [sweepStep, hp t]
  have hmap : sampleSweep p =
      (sweepInstants 360 0).map (fun u => (u, posOf (p u))) := by
    rw [sampleSweep_eq, hfun]
    exact List.filterMap_eq_map _ ▸ rfl
  refine ⟨?_, ?_, ?_⟩
  · rw [hmap]
    simp [sweepInstants]
  · rw [hmap]
    refine List.mem_map.mpr ⟨0 + 10 * 0, ?_, by norm_num⟩
    exact List.mem_map.mpr ⟨0, List.mem_range.mpr (by norm_num), rfl⟩
  · rw [hmap]
    refine List.pairwise_map.mpr ?_
    refine List.pairwise_map.mpr ?_
    exact (List.pairwise_lt_range 360).imp (fun hab => by omega)

/-- Constantly finite per-instant results, for concrete instantiations. -/
def allFiniteCalc : ℕ → CalcResult := fun _ => ⟨some 1, some 1, some 1, some 1⟩

/-- Witness for C5 at a concrete all-finite propagation. -/
theorem c5_sweep_yields_360_strictly_increasing_witness :
    (∀ t, isFiniteCalc (allFiniteCalc t) = true) ∧
      ((sampleSweep allFiniteCalc).length = 360 ∧
        ((0, posOf (allFiniteCalc 0)) : ℕ × JsVec3) ∈ sampleSweep allFiniteCalc ∧
        (sampleSweep allFiniteCalc).Pairwise (fun s₁ s₂ => s₁.1 < s₂.1)) :=
  ⟨fun _ => rfl, c5_sweep_yields_360_strictly_increasing allFiniteCalc (fun _ => rfl)⟩

/-- C6: an instant whose result fails the finiteness guard contributes no
element at all (no gap marker); any later valid instant is still sampled (the
sweep does not abort); and if every instant fails the sweep is empty. -/
theorem c6_sweep_skips_failures (p : ℕ → CalcResult) :
    (∀ t pos, isFiniteCalc (p t) = false → ((t, pos) : ℕ × JsVec3) ∉ sampleSweep p) ∧
      (∀ j, j < 360 → isFiniteCalc (p (10 * j)) = true →
        ((10 * j, posOf (p (10 * j))) : ℕ × JsVec3) ∈ sampleSweep p) ∧
      ((∀ t, isFiniteCalc (p t) = false) → sampleSweep p = []) := by
  refine ⟨?_, ?_, ?_⟩
  · intro t pos hfail hmem
    rw [sampleSweep_eq] at hmem
    rcases List.mem_filterMap.mp hmem with ⟨a, _, ha⟩
    by_cases hfin : isFiniteCalc (p a) = true
    · rw [sweepStep, if_pos hfin] at ha
      have hat : a = t := congrArg Prod.fst (Option.some.inj ha)
      rw [hat] at hfin
      rw [hfin] at hfail
      exact Bool.noConfusion hfail
    · rw [sweepStep, if_neg hfin] at ha
      exact Option.noConfusion ha
  · intro j hj hfin
    rw [sampleSweep_eq]
    refine List.mem_filterMap.mpr ⟨0 + 10 * j, ?_, ?_⟩
    · exact List.mem_map.mpr ⟨j, List.mem_range.mpr hj, rfl⟩
    · rw [Nat.zero_add, sweepStep, if_pos hfin]
  · intro hall
    rw [sampleSweep_eq]
    refine List.filterMap_eq_nil_iff.mpr ?_
    intro a _
    rw [sweepStep, if_neg ?_]
    rw [hall a]
    exact Bool.false_ne_true

/-- Per-instant results that all fail (the all-decayed orbit scenario). -/
def allNanCalc : ℕ → CalcResult := fun _ => ⟨none, none, none, none⟩

/-- Per-instant results failing at the start instant only. -/
def mixedCalc : ℕ → CalcResult :=
  fun t => if t = 0 then ⟨none, none, none, none⟩ else ⟨some 1, some 1, some 1, some 1⟩

/-- Witness for C6 at concrete propagations: a failure at instant 0 is
skipped, the valid instant 10 is still sampled, and the all-failing sweep is
empty. -/
theorem c6_sweep_skips_failures_witness :
    (((0, posOf (allNanCalc 0)) : ℕ × JsVec3) ∉ sampleSweep mixedCalc) ∧
      ((10 * 1, posOf (mixedCalc (10 * 1))) : ℕ × JsVec3) ∈ sampleSweep mixedCalc ∧
      sampleSweep allNanCalc = [] :=
  ⟨(c6_sweep_skips_failures mixedCalc).1 0 (posOf (allNanCalc 0)) rfl,
   (c6_sweep_skips_failures mixedCalc).2.1 1 (by decide) rfl,
   (c6_sweep_skips_failures allNanCalc).2.2 (fun _ => rfl)⟩

/-- C10: every sample appended by the sweep has finite x, y and z components:
the finiteness filter guards every insertion, so no NaN coordinate reaches the
consumer's sequence. -/
theorem c10_samples_all_finite (p : ℕ → CalcResult) (s : ℕ × JsVec3)
    (hs : s ∈ sampleSweep p) : isFiniteVec3 s.2 = true := by
  rw [sampleSweep_eq] at hs
  rcases List.mem_filterMap.mp hs with ⟨a, _, ha⟩
  by_cases hfin : isFiniteCalc (p a) = true
  · rw [sweepStep, if_pos hfin] at ha
    have hsnd : s.2 = posOf (p a) := (congrArg Prod.snd (Option.some.inj ha)).symm
    rw [hsnd]
    exact hfin
  · rw [sweepStep, if_neg hfin] at ha
    exact Option.noConfusion ha

/-- Membership of the start sample in the all-finite sweep, for the witness. -/
theorem allFiniteCalc_start_mem :
    ((0, posOf (allFiniteCalc 0)) : ℕ × JsVec3) ∈ sampleSweep allFiniteCalc := by
  rw [sampleSweep_eq]
  exact List.mem_filterMap.mpr
    ⟨0 + 10 * 0, List.mem_map.mpr ⟨0, List.mem_range.mpr (by norm_num), rfl⟩, rfl⟩

/-- Witness for C10 at a concrete sample of a concrete sweep. -/
theorem c10_samples_all_finite_witness :
    isFiniteVec3 (((0, posOf (allFiniteCalc 0)) : ℕ × JsVec3)).2 = true :=
  c10_samples_all_finite allFiniteCalc (0, posOf (allFiniteCalc 0)) allFiniteCalc_start_mem

/-- The half-angle in radians used by calculateFovFootprint at a 45-degree
full field of view is pi/8 (22.5 degrees). -/
theorem degreesToRadians_45_half : degreesToRadians ((45 : ℝ) / 2) = π / 8 := by
  unfold degreesToRadians
  ring

/-- The tangent of the 22.5-degree half angle is positive. -/
theorem tan_pi_div_eight_pos : 0 < Real.tan (π / 8) :=
  Real.tan_pos_of_pos_of_lt_pi_div_two (by positivity) (by linarith [Real.pi_pos])

/-- The tangent of the 22.5-degree half angle is below 1. -/
theorem tan_pi_div_eight_lt_one : Real.tan (π / 8) < 1 := by
  have h := Real.tan_lt_tan_of_lt_of_lt_pi_div_two (x := π / 8) (y := π / 4)
    (by linarith [Real.pi_pos]) (by linarith [Real.pi_pos]) (by linarith [Real.pi_pos])
  rwa [Real.tan_pi_div_four] at h

/-- C3: the claim is false as stated: calculateFovFootprint applied to the
arguments (500, 45) does not return the reference value pi*(500*tan(22.5
degrees))^2 — the source divides by 10^6 (its altitude parameter is in
meters and the area in square kilometers), so the computed value is below 1. -/
theorem c3_footprint_500_45_counterexample :
    fovFootprintArea 500 45 ≠ π * (500 * Real.tan (π / 8)) ^ 2 ∧
      fovFootprintArea 500 45 < 1 := by
  have harea : fovFootprintArea 500 45 = π * (500 * Real.tan (π / 8)) ^ 2 / 1000000 := by
    unfold fovFootprintArea
    rw [degreesToRadians_45_half]
    ring
  have hpos : 0 < π * (500 * Real.tan (π / 8)) ^ 2 := by
    have := tan_pi_div_eight_pos
    positivity
  constructor
  · rw [harea]
    intro hEq
    nlinarith [hpos]
  · rw [harea]
    have hsq : (500 * Real.tan (π / 8)) ^ 2 < 250000 := by
      nlinarith [tan_pi_div_eight_pos, tan_pi_div_eight_lt_one]
    nlinarith [Real.pi_pos, Real.pi_lt_d2, hsq, hpos]

/-- C3 (amended): with the altitude expressed in meters — as the sampling
loop passes it, the height field being km * 1000 — the area value equals the
reference formula in square kilometers: at 500 km = 500000 m and a 45-degree
full field of view it is exactly pi*(500*tan(22.5 degrees))^2. -/
theorem c3_footprint_meters_matches_reference :
    fovFootprintArea 500000 45 = π * (500 * Real.tan (π / 8)) ^ 2 := by
  unfold fovFootprintArea
  rw [degreesToRadians_45_half]
  ring

/-- The area value as a closed formula, for sign and monotonicity reasoning. -/
theorem fovFootprintArea_eq (h fov : ℝ) :
    fovFootprintArea h fov =
      π * (h * Real.tan (fov * (π / 360))) ^ 2 / 1000000 := by
  unfold fovFootprintArea degreesToRadians
  ring_nf

/-- The half angle of a field of view in the valid (0, 180) range lies in
(0, pi/2), where the tangent is positive. -/
theorem halfAngle_tan_pos {fov : ℝ} (h0 : 0 < fov) (h1 : fov < 180) :
    0 < Real.tan (fov * (π / 360)) := by
  refine Real.tan_pos_of_pos_of_lt_pi_div_two (by positivity) ?_
  nlinarith [Real.pi_pos]

/-- C4: the claim is false: calculateFovFootprint does not fail on invalid
inputs.  At altitude -1 (which the claim says must fail with InvalidAltitude)
it returns the same positive area as altitude 1, and at a 200-degree full
field of view (which the claim says must fail with InvalidFieldOfView) it
returns a positive area. -/
theorem c4_no_validation_counterexample :
    fovFootprintArea (-1) 45 = fovFootprintArea 1 45 ∧
      0 < fovFootprintArea (-1) 45 ∧ 0 < fovFootprintArea 500 200 := by
  have h45 : fovFootprintArea (-1) 45 = fovFootprintArea 1 45 := by
    unfold fovFootprintArea
    ring
  have h100 : degreesToRadians ((200 : ℝ) / 2) = 5 * π / 9 := by
    unfold degreesToRadians
    ring
  have htan : Real.tan (5 * π / 9) < 0 := by
    have hsin : 0 < Real.sin (5 * π / 9) :=
      Real.sin_pos_of_pos_of_lt_pi (by positivity) (by linarith [Real.pi_pos])
    have hcos : Real.cos (5 * π / 9) < 0 :=
      Real.cos_neg_of_pi_div_two_lt_of_lt (by linarith [Real.pi_pos])
        (by linarith [Real.pi_pos])
    rw [Real.tan_eq_sin_div_cos]
    exact div_neg_of_pos_of_neg hsin hcos
  refine ⟨h45, ?_, ?_⟩
  · rw [h45, fovFootprintArea_eq]
    have ht : 0 < Real.tan (45 * (π / 360)) :=
      halfAngle_tan_pos (by norm_num) (by norm_num)
    refine div_pos (mul_pos Real.pi_pos ?_) (by norm_num)
    rw [one_mul]
    exact pow_pos ht 2
  · rw [fovFootprintArea_eq,
      show (200 : ℝ) * (π / 360) = 5 * π / 9 from by ring]
    have hbase : 500 * Real.tan (5 * π / 9) < 0 :=
      mul_neg_of_pos_of_neg (by norm_num) htan
    refine div_pos (mul_pos Real.pi_pos ?_) (by norm_num)
    exact pow_two_pos_of_ne_zero (ne_of_lt hbase)

/-- C4 (amended): calculateFovFootprint performs no domain validation and
never fails: a negated altitude yields the identical area, and every input —
valid or not — is formatted by toFixed(2), yielding the two-fraction-digit
hundredths rounding whenever the area is below the formatting threshold. -/
theorem c4_no_validation_total (h fov : ℝ) :
    fovFootprintArea (-h) fov = fovFootprintArea h fov ∧
      (|fovFootprintArea h fov| < 10 ^ 21 →
        calculateFovFootprint h fov =
          ToFixed2.fixed (round (100 * fovFootprintArea h fov))) :=
  ⟨by unfold fovFootprintArea; ring, fun hlt => by
    unfold calculateFovFootprint jsToFixed2
    rw [if_pos hlt]⟩

/-- Rounding to hundredths is monotone. -/
theorem round_monotone_real {x y : ℝ} (h : x ≤ y) : round x ≤ round y := by
  rw [round_eq, round_eq]
  exact Int.floor_le_floor (by linarith)

/-- C7: over the valid domain the footprint area is strictly increasing in
altitude at a fixed field of view and strictly increasing in field of view at
a fixed altitude; the hundredths rounding applied by the toFixed formatting
is correspondingly monotone. -/
theorem c7_footprint_monotone :
    (∀ h₁ h₂ fov : ℝ, 0 < h₁ → h₁ < h₂ → 0 < fov → fov < 180 →
        fovFootprintArea h₁ fov < fovFootprintArea h₂ fov ∧
          round (100 * fovFootprintArea h₁ fov) ≤
            round (100 * fovFootprintArea h₂ fov)) ∧
      (∀ hgt fov₁ fov₂ : ℝ, 0 < hgt → 0 < fov₁ → fov₁ < fov₂ → fov₂ < 180 →
        fovFootprintArea hgt fov₁ < fovFootprintArea hgt fov₂ ∧
          round (100 * fovFootprintArea hgt fov₁) ≤
            round (100 * fovFootprintArea hgt fov₂)) := by
  constructor
  · intro h₁ h₂ fov hh₁ hh₂ hf₀ hf₁
    have ht := halfAngle_tan_pos hf₀ hf₁
    have harea : fovFootprintArea h₁ fov < fovFootprintArea h₂ fov := by
      rw [fovFootprintArea_eq, fovFootprintArea_eq]
      have k1 : 0 < h₁ * Real.tan (fov * (π / 360)) := mul_pos hh₁ ht
      have k2 : h₁ * Real.tan (fov * (π / 360)) < h₂ * Real.tan (fov * (π / 360)) :=
        mul_lt_mul_of_pos_right hh₂ ht
      have hsq : (h₁ * Real.tan (fov * (π / 360))) ^ 2 <
          (h₂ * Real.tan (fov * (π / 360))) ^ 2 := by
        nlinarith [k1, k2]
      linarith [mul_lt_mul_of_pos_left hsq Real.pi_pos]
    exact ⟨harea, round_monotone_real (by nlinarith [harea])⟩
  · intro hgt fov₁ fov₂ hh hf₀ hf₁₂ hf₂
    have hθ₂ := halfAngle_tan_pos (by linarith) hf₂
    have hθ₁ := halfAngle_tan_pos hf₀ (by linarith)
    have htan : Real.tan (fov₁ * (π / 360)) < Real.tan (fov₂ * (π / 360)) := by
      refine Real.tan_lt_tan_of_lt_of_lt_pi_div_two ?_ ?_ ?_
      · nlinarith [Real.pi_pos]
      · nlinarith [Real.pi_pos]
      · nlinarith [Real.pi_pos]
    have harea : fovFootprintArea hgt fov₁ < fovFootprintArea hgt fov₂ := by
      rw [fovFootprintArea_eq, fovFootprintArea_eq]
      have k1 : 0 < hgt * Real.tan (fov₁ * (π / 360)) := mul_pos hh hθ₁
      have k2 : hgt * Real.tan (fov₁ * (π / 360)) < hgt * Real.tan (fov₂ * (π / 360)) :=
        mul_lt_mul_of_pos_left htan hh
      have hsq : (hgt * Real.tan (fov₁ * (π / 360))) ^ 2 <
          (hgt * Real.tan (fov₂ * (π / 360))) ^ 2 := by
        nlinarith [k1, k2]
      linarith [mul_lt_mul_of_pos_left hsq Real.pi_pos]
    exact ⟨harea, round_monotone_real (by nlinarith [harea])⟩

/-- Witness for C7 at concrete valid inputs. -/
theorem c7_footprint_monotone_witness :
    (fovFootprintArea 1 45 < fovFootprintArea 2 45 ∧
        round (100 * fovFootprintArea 1 45) ≤ round (100 * fovFootprintArea 2 45)) ∧
      (fovFootprintArea 1 45 < fovFootprintArea 1 90 ∧
        round (100 * fovFootprintArea 1 45) ≤ round (100 * fovFootprintArea 1 90)) :=
  ⟨c7_footprint_monotone.1 1 2 45 (by norm_num) (by norm_num) (by norm_num) (by norm_num),
   c7_footprint_monotone.2 1 45 90 (by norm_num) (by norm_num) (by norm_num) (by norm_num)⟩

/-- The footprint area at altitude 1 and a 45-degree field of view is far
below the toFixed formatting threshold. -/
theorem fovFootprintArea_1_45_small : |fovFootprintArea 1 45| < 10 ^ 21 := by
  have harea : fovFootprintArea 1 45 = π * (1 * Real.tan (π / 8)) ^ 2 / 1000000 := by
    rw [fovFootprintArea_eq, show (45 : ℝ) * (π / 360) = π / 8 from by ring]
  have ht := tan_pi_div_eight_pos
  have ht1 := tan_pi_div_eight_lt_one
  have hpos : 0 < fovFootprintArea 1 45 := by
    rw [harea]
    refine div_pos (mul_pos Real.pi_pos ?_) (by norm_num)
    rw [one_mul]
    exact pow_pos ht 2
  rw [abs_of_pos hpos, harea]
  have hsq : Real.tan (π / 8) ^ 2 < 1 := by nlinarith [ht, ht1]
  nlinarith [Real.pi_lt_d2, Real.pi_pos, hsq, sq_nonneg (Real.tan (π / 8))]

/-- At the finite altitude 1e14 (with the 45-degree field of view) the
computed footprint area reaches the toFixed formatting threshold. -/
theorem fovFootprintArea_1e14_45_large :
    (10 : ℝ) ^ 21 ≤ |fovFootprintArea (10 ^ 14) 45| := by
  have harea : fovFootprintArea (10 ^ 14) 45 =
      π * ((10 ^ 14 : ℝ) * Real.tan (π / 8)) ^ 2 / 1000000 := by
    rw [fovFootprintArea_eq, show (45 : ℝ) * (π / 360) = π / 8 from by ring]
  have htlo : (0.39 : ℝ) < Real.tan (π / 8) := by
    have hlt : π / 8 < Real.tan (π / 8) :=
      Real.lt_tan (by positivity) (by linarith [Real.pi_pos])
    linarith [Real.pi_gt_d2]
  have hsq : (0.15 : ℝ) < Real.tan (π / 8) ^ 2 := by nlinarith [htlo]
  have hpos : (0 : ℝ) < fovFootprintArea (10 ^ 14) 45 := by
    rw [harea]
    refine div_pos (mul_pos Real.pi_pos ?_) (by norm_num)
    exact pow_pos (mul_pos (by positivity) tan_pi_div_eight_pos) 2
  rw [abs_of_pos hpos, harea]
  nlinarith [hsq, Real.pi_gt_d2]

/-- C9: the claim is false as stated: calculateFovFootprint never fails, but
at the finite altitude 1e14 (with the 45-degree field of view) the computed
area reaches ECMAScript's 1e21 toFixed threshold and the returned string is
exponential notation, not a decimal with exactly two fraction digits. -/
theorem c9_exponential_counterexample :
    (calculateFovFootprint (10 ^ 14) 45).isTwoDigitDecimal = false := by
  unfold calculateFovFootprint jsToFixed2
  rw [if_neg (not_lt.mpr fovFootprintArea_1e14_45_large)]
  rfl

/-- C9 (amended): calculateFovFootprint is total — it never fails on any
input, in or out of range — and returns the toFixed(2) formatting of the
area: a decimal with exactly two fraction digits (the hundredths rounding,
within half a hundredth of 100 times the area) whenever the area's magnitude
is below 1e21, and the exponential-notation value at or above that
threshold. -/
theorem c9_total_fixed_below_threshold (h fov : ℝ) :
    (|fovFootprintArea h fov| < 10 ^ 21 →
        ∃ n : ℤ, calculateFovFootprint h fov = ToFixed2.fixed n ∧
          |(n : ℝ) - 100 * fovFootprintArea h fov| ≤ 1 / 2) ∧
      (10 ^ 21 ≤ |fovFootprintArea h fov| →
        calculateFovFootprint h fov = ToFixed2.exponential (fovFootprintArea h fov)) := by
  constructor
  · intro hlt
    refine ⟨round (100 * fovFootprintArea h fov), ?_, ?_⟩
    · unfold calculateFovFootprint jsToFixed2
      rw [if_pos hlt]
    · rw [abs_sub_comm]
      exact abs_sub_round _
  · intro hge
    unfold calculateFovFootprint jsToFixed2
    rw [if_neg (not_lt.mpr hge)]

/-- The four-quadrant arctangent of 0 over a positive abscissa is 0. -/
theorem atan2_zero_pos {x : ℝ} (hx : 0 < x) : atan2 0 x = 0 := by
  unfold atan2
  rw [if_pos hx, zero_div, Real.arctan_zero]

/-- Evaluation of the modelled eciToGeodetic at the equatorial test point:
the inertial position (6778.137, 0, 0) km at sidereal angle 0 has longitude
0, latitude 0, and height 400 km above the ellipsoid equator. -/
theorem eciToGeodetic_equator :
    eciToGeodetic ⟨6778.137, 0, 0⟩ 0 = ⟨0, 0, 400⟩ := by
  have hx : (0 : ℝ) < 6778.137 := by norm_num
  have hR : Real.sqrt ((6778.137 : ℝ) ^ 2 + 0 ^ 2) = 6778.137 := by
    rw [show ((6778.137 : ℝ) ^ 2 + 0 ^ 2) = 6778.137 ^ 2 from by ring]
    exact Real.sqrt_sq (by norm_num)
  have hstep : geodeticLatStep 6778.137 0 0 = 0 := by
    unfold geodeticLatStep
    simp only [Real.sin_zero, mul_zero, add_zero, zero_add]
    exact atan2_zero_pos hx
  have hiter : (geodeticLatStep 6778.137 0)^[20] 0 = 0 :=
    Function.iterate_fixed hstep 20
  have hwrap : wrapLongitude 0 = 0 := by
    unfold wrapLongitude
    rw [zero_div, round_zero]
    norm_num
  simp only [eciToGeodetic, hR, atan2_zero_pos hx, sub_zero, hiter, hwrap,
    Real.sin_zero, Real.cos_zero]
  norm_num [semiMajorAxisKm, Real.sqrt_one]

/-- C2 (code bug): at a successfully propagated equatorial input the source's
composition — eciToGeodetic, then a spurious degrees-to-radians conversion of
the already-radian angles and a km-to-m height scaling, then geodeticToEcf —
produces an Earth-fixed x of 406378.137 km where the true Earth-fixed
position (the sidereal rotation of the inertial one) has x = 6778.137 km: an
error of 399600 km, far beyond the claimed 1-meter (0.001 km) tolerance. -/
theorem c2_roundtrip_exceeds_tolerance :
    (calculatePositionAtTime ⟨some ⟨6778.137, 0, 0⟩, some ⟨0, 0, 0⟩⟩ 0).x =
        some 406378.137 ∧
      (eciToEcf ⟨6778.137, 0, 0⟩ 0).x = 6778.137 ∧
      ((406378.137 : ℝ) - 6778.137) > 1 / 1000 := by
  refine ⟨?_, ?_, by norm_num⟩
  · simp only [calculatePositionAtTime, eciToGeodetic_equator]
    simp only [degreesToRadians, zero_mul, zero_div, geodeticToEcf,
      Real.sin_zero, Real.cos_zero]
    norm_num [semiMajorAxisKm, Real.sqrt_one]
  · simp only [eciToEcf, Real.cos_zero, Real.sin_zero]
    norm_num

/-- C1: the claim that a propagation failure is returned as an explicit
result value — never a sentinel position with NaN coordinates — is false: at
a failed propagation (no position, no velocity) the source returns exactly
the sentinel whose x, y and z are NaN. -/
theorem c1_failure_counterexample :
    calculatePositionAtTime ⟨none, none⟩ 0 = ⟨none, none, none, none⟩ := rfl

/-- C1 (amended): on every propagation failure calculatePositionAtTime
returns the NaN sentinel position, not an explicit failure value; the
sentinel is rejected by the sampling loop's finiteness filter, so it never
enters the delivered sequence. -/
theorem c1_failure_yields_nan_sentinel (pv : PosVel) (g : ℝ)
    (h : pv.position = none ∨ pv.velocity = none) :
    calculatePositionAtTime pv g = ⟨none, none, none, none⟩ ∧
      isFiniteCalc (calculatePositionAtTime pv g) = false := by
  obtain ⟨pos, vel⟩ := pv
  have hmain : calculatePositionAtTime ⟨pos, vel⟩ g = ⟨none, none, none, none⟩ := by
    rcases h with h | h
    · cases pos with
      | none => cases vel <;> rfl
      | some q => exact absurd h (by simp)
    · cases vel with
      | none => cases pos <;> rfl
      | some q => exact absurd h (by simp)
  rw [hmain]
  exact ⟨rfl, rfl⟩

/-- Witness for C1's amended theorem at a concrete failed propagation. -/
theorem c1_failure_yields_nan_sentinel_witness :
    ((⟨none, none⟩ : PosVel).position = none ∨
        (⟨none, none⟩ : PosVel).velocity = none) ∧
      (calculatePositionAtTime ⟨none, none⟩ 0 = ⟨none, none, none, none⟩ ∧
        isFiniteCalc (calculatePositionAtTime ⟨none, none⟩ 0) = false) :=
  ⟨Or.inl rfl, c1_failure_yields_nan_sentinel ⟨none, none⟩ 0 (Or.inl rfl)⟩

/-- C8: calculatePositionAtTime is a pure function of its inputs: its output
is fully determined by the propagation result and the sidereal angle obtained
from its arguments — there is no hidden state — so two calls with a fixed
element set and a fixed instant return identical results. -/
theorem c8_deterministic {SatRec : Type} (lib lib2 : SatLib SatRec)
    (l1 l2 l3 l4 : String) (d d2 : ℝ)
    (hpv : lib.propagate (lib.twoline2satrec l1 l2) d =
      lib2.propagate (lib2.twoline2satrec l3 l4) d2)
    (hg : lib.gstime d = lib2.gstime d2) :
    calculatePositionAtTimeTLE lib l1 l2 d = calculatePositionAtTimeTLE lib2 l3 l4 d2 := by
  simp only [calculatePositionAtTimeTLE]
  rw [hpv, hg]

/-- Trivial concrete instance of the external library interface. -/
def unitSatLib : SatLib Unit :=
  ⟨fun _ _ => (), fun _ _ => ⟨none, none⟩, fun _ => 0⟩

/-- Witness for C8: two calls on the source's hard-coded element set at the
same instant give identical results. -/
theorem c8_deterministic_witness :
    calculatePositionAtTimeTLE unitSatLib tleLine1 tleLine2 0 =
      calculatePositionAtTimeTLE unitSatLib tleLine1 tleLine2 0 :=
  c8_deterministic unitSatLib unitSatLib tleLine1 tleLine2 tleLine1 tleLine2 0 0 rfl rfl

/-- Witness for C4's amended theorem at concrete inputs, discharging the
formatting-threshold hypothesis. -/
theorem c4_no_validation_total_witness :
    fovFootprintArea (-1) 45 = fovFootprintArea 1 45 ∧
      calculateFovFootprint 1 45 = ToFixed2.fixed (round (100 * fovFootprintArea 1 45)) :=
  ⟨(c4_no_validation_total 1 45).1,
   (c4_no_validation_total 1 45).2 fovFootprintArea_1_45_small⟩

/-- Witness for C9's amended theorem: the two-fraction-digit branch at
altitude 1 and the exponential branch at altitude 1e14. -/
theorem c9_total_fixed_below_threshold_witness :
    (∃ n : ℤ, calculateFovFootprint 1 45 = ToFixed2.fixed n ∧
        |(n : ℝ) - 100 * fovFootprintArea 1 45| ≤ 1 / 2) ∧
      calculateFovFootprint (10 ^ 14) 45 =
        ToFixed2.exponential (fovFootprintArea (10 ^ 14) 45) :=
  ⟨(c9_total_fixed_below_threshold 1 45).1 fovFootprintArea_1_45_small,
   (c9_total_fixed_below_threshold (10 ^ 14) 45).2 fovFootprintArea_1e14_45_large⟩
